import Mathlib

/-!
# Verification of the cloudflare-go client core

A shallow embedding of `cloudflare.go` (package `cloudflare`): the JSON
envelope decoder (`BaseSvc.Decode`), the DNS-record serialization
(`DNSRecord.String` / `JsonString` with `omitempty` tags), the search
query-parameter construction (`DNSRecordsSvc.Search` via `net/url.Values`),
and the six service operations.

Modelling conventions:
* JSON documents are modelled as `Json` trees; a response body is an
  `Option Json` (`none` = the body bytes are not valid JSON).  Numbers are
  integers, which covers every numeric field of the package (`uint64`
  counters and TTLs).
* Go's `encoding/json` marshalling of a struct is modelled as the ordered
  field list of the produced JSON object; unmarshalling of an object into a
  struct is modelled per struct field as: take the last binding of the
  field's wire key (later duplicate keys overwrite earlier ones in Go),
  leave the zero value when the key is absent or bound to `null`, and fail
  on a type mismatch.  `json.RawMessage` fields keep the raw sub-document
  (`Option Json`; `none` when the key is absent, so that a later
  `json.Unmarshal` on the empty raw message fails like Go's
  "unexpected end of JSON input").
* The HTTP transport (`BaseSvc.Invoke`, i.e. `net/http`) is an oracle
  `Transport : Request → HttpResult`: `.failed e` is Go's
  `resp == nil` with error `e`, `.ok body` a delivered response body.
* Errors are represented by their message strings; `none` is Go's `nil`
  error.
-/

namespace Cloudflare

/-- A JSON document. -/
inductive Json where
  | null : Json
  | bool (b : Bool) : Json
  | num (n : Int) : Json
  | str (s : String) : Json
  | arr (elems : List Json) : Json
  | obj (fields : List (String × Json)) : Json

/-- Look up key `k` in an ordered JSON-object field list, returning the
*last* binding (Go's `encoding/json` lets later duplicate keys overwrite
earlier ones when filling a struct). -/
def lookupField (k : String) : List (String × Json) → Option Json
  | [] => none
  | (k', v) :: rest =>
    match lookupField k rest with
    | some w => some w
    | none => if k' = k then some v else none

theorem lookupField_nil (k : String) : lookupField k [] = none := rfl

theorem lookupField_append (k : String) (l₁ l₂ : List (String × Json)) :
    lookupField k (l₁ ++ l₂) =
      match lookupField k l₂ with
      | some w => some w
      | none => lookupField k l₁ := by
  induction l₁ with
  | nil =>
    simp only [List.nil_append, lookupField]
    cases h : lookupField k l₂ <;> simp [h]
  | cons p rest ih =>
    obtain ⟨k', v⟩ := p
    simp only [List.cons_append, lookupField, ih]
    cases h₂ : lookupField k l₂ <;> cases h₁ : lookupField k rest <;>
      simp [ih, h₁, h₂]

/-- `optField present key value` is the contribution of one `omitempty`
struct field to the marshalled object: present fields contribute a single
binding, omitted fields contribute nothing. -/
def optField (present : Prop) [Decidable present] (k : String) (v : Json) :
    List (String × Json) :=
  if present then [(k, v)] else []

theorem lookupField_optField_same (present : Prop) [Decidable present]
    (k : String) (v : Json) :
    lookupField k (optField present k v) =
      if present then some v else none := by
  by_cases h : present <;> simp [optField, lookupField, h]

theorem lookupField_optField_ne (present : Prop) [Decidable present]
    (k k' : String) (v : Json) (h : k' ≠ k) :
    lookupField k (optField present k' v) = none := by
  by_cases hp : present <;> simp [optField, lookupField, h, hp]

/-! ## `net/url` query encoding

`url.Values` is built by `Search` with at most one value per key, so it is
modelled as the ordered list of `Add`ed pairs; `Values.Encode` percent-
encodes each key and value (`url.QueryEscape`) and joins `k=v` pairs with
`&`, sorted by key. -/

/-- UTF-8 bytes of a character (Go strings are byte strings; escaping is
byte-wise). -/
def utf8Bytes (c : Char) : List Nat :=
  let n := c.toNat
  if n < 0x80 then [n]
  else if n < 0x800 then
    [0xC0 ||| n >>> 6, 0x80 ||| (n &&& 0x3F)]
  else if n < 0x10000 then
    [0xE0 ||| n >>> 12, 0x80 ||| ((n >>> 6) &&& 0x3F), 0x80 ||| (n &&& 0x3F)]
  else
    [0xF0 ||| n >>> 18, 0x80 ||| ((n >>> 12) &&& 0x3F),
     0x80 ||| ((n >>> 6) &&& 0x3F), 0x80 ||| (n &&& 0x3F)]

/-- Does `url.QueryEscape` leave byte `b` unescaped?  (`shouldEscape` in
`net/url`, mode `encodeQueryComponent`: alphanumerics and `-_.~` survive.) -/
def unreservedByte (b : Nat) : Bool :=
  (0x41 ≤ b && b ≤ 0x5A) || (0x61 ≤ b && b ≤ 0x7A) || (0x30 ≤ b && b ≤ 0x39) ||
  b = 0x2D || b = 0x5F || b = 0x2E || b = 0x7E

/-- Uppercase hexadecimal digit, as used by `net/url` percent-escaping. -/
def hexUpper (n : Nat) : Char :=
  if n < 10 then Char.ofNat (0x30 + n) else Char.ofNat (0x37 + n)

/-- `url.QueryEscape` of one byte: unreserved bytes survive, space becomes
`+`, everything else becomes `%XX`. -/
def escapeByte (b : Nat) : List Char :=
  if unreservedByte b then [Char.ofNat b]
  else if b = 0x20 then ['+']
  else ['%', hexUpper (b / 16 % 16), hexUpper (b % 16)]

/-- Go's `url.QueryEscape`. -/
def queryEscape (s : String) : String :=
  String.mk ((s.toList.flatMap utf8Bytes).flatMap escapeByte)

/-- Lexicographic order on character lists by code point (for the ASCII
keys built by `Search` this is exactly Go's byte-wise string order). -/
def charListLt : List Char → List Char → Bool
  | _, [] => false
  | [], _ :: _ => true
  | c :: cs, d :: ds =>
    if c.toNat < d.toNat then true
    else if d.toNat < c.toNat then false
    else charListLt cs ds

/-- String order used by `sort.Strings` inside `url.Values.Encode`. -/
def keyLt (a b : String) : Bool := charListLt a.toList b.toList

/-- Insert a key/value pair into a key-sorted pair list (ascending,
byte-wise key order — `sort.Strings` inside `url.Values.Encode`). -/
def insertPair (p : String × String) :
    List (String × String) → List (String × String)
  | [] => [p]
  | q :: rest => if keyLt q.1 p.1 then q :: insertPair p rest else p :: q :: rest

/-- Sort a pair list by key, ascending (the keys built by `Search` are
distinct, so tie order is irrelevant). -/
def sortByKey : List (String × String) → List (String × String)
  | [] => []
  | p :: rest => insertPair p (sortByKey rest)

/-- Go's `url.Values.Encode`: escape keys and values, join each pair with
`=` and the pairs with `&`, sorted by key. -/
def encodeValues (vs : List (String × String)) : String :=
  String.intercalate "&"
    ((sortByKey vs).map fun p => queryEscape p.1 ++ "=" ++ queryEscape p.2)

/-- `pat` occurs as a contiguous substring of `s`. -/
def isSubstr (pat s : String) : Bool :=
  (List.range (s.toList.length + 1)).any fun i =>
    (s.toList.drop i).take pat.toList.length = pat.toList

/-! ## Core types (`Zone`, `DNSRecord`, `Message`)

Field defaults are the Go zero values, so `{}` is the zero struct. -/

/-- URL constant `ApiUrlBase`. -/
def ApiUrlBase : String := "https://api.cloudflare.com/client/v4"

/-- URL constant `APiUrlZones` (sic). -/
def APiUrlZones : String := "/zones/"

/-- URL constant `ApiUrlDnsRecords`. -/
def ApiUrlDnsRecords : String := "/dns_records/"

/-- The `Zone` type. -/
structure Zone where
  Name : String := ""
  Id : String := ""
  Type' : String := ""
  NameServers : List String := []
  Status : String := ""
  Paused : Bool := false
  OriginalNameServers : List String := []
  DevelopmentMode : Nat := 0
deriving DecidableEq

/-- The anonymous struct of `DNSRecord.Meta` (single field
`AutoAdded bool`, wire key `auto_added`, `omitempty`). -/
structure DNSRecordMeta where
  AutoAdded : Bool := false
deriving DecidableEq

/-- The `DNSRecord` type.  Every field carries a `json:"...,omitempty"`
tag in the source. -/
structure DNSRecord where
  Id : String := ""
  Type' : String := ""
  Name : String := ""
  Content : String := ""
  Proxiable : Bool := false
  Proxied : Bool := false
  Ttl : Nat := 0
  Locked : Bool := false
  ZoneId : String := ""
  ZoneName : String := ""
  ModifiedOn : String := ""
  CreatedOn : String := ""
  Meta : DNSRecordMeta := {}
deriving DecidableEq

/-- The anonymous `ResultInfo` struct nested in `Message`. -/
structure MessageResultInfo where
  Page : Nat := 0
  PerPage : Nat := 0
  TotalPages : Nat := 0
  Count : Nat := 0
  TotalCount : Nat := 0
deriving DecidableEq

/-- The `Message` envelope.  `Errors`, `Messages` and `Result` are
`json.RawMessage`: the raw sub-document is kept (`none` when the key was
absent, which in Go leaves the raw message `nil`/empty). -/
structure Message where
  Success : Bool := false
  Errors : Option Json := none
  Messages : Option Json := none
  Result : Option Json := none
  ResultInfo : MessageResultInfo := {}

/-! ## `encoding/json` unmarshalling of the core types -/

/-- Unmarshal an optional object entry into a `string` field: absent or
`null` leaves the zero value, a JSON string fills it, anything else is a
type error. -/
def decodeStrField : Option Json → Except String String
  | none => .ok ""
  | some .null => .ok ""
  | some (.str s) => .ok s
  | some _ => .error "json: cannot unmarshal value into field of type string"

/-- Unmarshal an optional object entry into a `bool` field. -/
def decodeBoolField : Option Json → Except String Bool
  | none => .ok false
  | some .null => .ok false
  | some (.bool b) => .ok b
  | some _ => .error "json: cannot unmarshal value into field of type bool"

/-- Unmarshal an optional object entry into a `uint64` field (negative
numbers overflow and are rejected by `encoding/json`). -/
def decodeUintField : Option Json → Except String Nat
  | none => .ok 0
  | some .null => .ok 0
  | some (.num n) =>
    if n < 0 then .error "json: cannot unmarshal negative number into field of type uint64"
    else .ok n.toNat
  | some _ => .error "json: cannot unmarshal value into field of type uint64"

/-- Unmarshal an optional object entry into a `[]string` field. -/
def decodeStrListField : Option Json → Except String (List String)
  | none => .ok []
  | some .null => .ok []
  | some (.arr xs) =>
    xs.mapM fun x =>
      match x with
      | .str s => Except.ok s
      | _ => Except.error "json: cannot unmarshal value into field of type string"
  | some _ => .error "json: cannot unmarshal value into field of type []string"

/-- `json.Unmarshal` into a `Zone`. -/
def Zone.unmarshal : Json → Except String Zone
  | .null => .ok {}
  | .obj fs => do
    let name ← decodeStrField (lookupField "name" fs)
    let id ← decodeStrField (lookupField "id" fs)
    let ty ← decodeStrField (lookupField "type" fs)
    let ns ← decodeStrListField (lookupField "name_servers" fs)
    let status ← decodeStrField (lookupField "status" fs)
    let paused ← decodeBoolField (lookupField "paused" fs)
    let ons ← decodeStrListField (lookupField "original_name_servers" fs)
    let dm ← decodeUintField (lookupField "development_mode" fs)
    .ok { Name := name, Id := id, Type' := ty, NameServers := ns,
          Status := status, Paused := paused, OriginalNameServers := ons,
          DevelopmentMode := dm }
  | _ => .error "json: cannot unmarshal value into Go value of type cloudflare.Zone"

/-- `json.Unmarshal` into the nested `Meta` struct. -/
def DNSRecordMeta.unmarshal : Json → Except String DNSRecordMeta
  | .null => .ok {}
  | .obj gs => do
    let aa ← decodeBoolField (lookupField "auto_added" gs)
    .ok { AutoAdded := aa }
  | _ => .error "json: cannot unmarshal value into field Meta"

/-- `json.Unmarshal` into a `DNSRecord`. -/
def DNSRecord.unmarshal : Json → Except String DNSRecord
  | .null => .ok {}
  | .obj fs => do
    let id ← decodeStrField (lookupField "id" fs)
    let ty ← decodeStrField (lookupField "type" fs)
    let name ← decodeStrField (lookupField "name" fs)
    let content ← decodeStrField (lookupField "content" fs)
    let proxiable ← decodeBoolField (lookupField "proxiable" fs)
    let proxied ← decodeBoolField (lookupField "proxied" fs)
    let ttl ← decodeUintField (lookupField "ttl" fs)
    let locked ← decodeBoolField (lookupField "locked" fs)
    let zoneId ← decodeStrField (lookupField "zone_id" fs)
    let zoneName ← decodeStrField (lookupField "zone_name" fs)
    let modifiedOn ← decodeStrField (lookupField "modified_on" fs)
    let createdOn ← decodeStrField (lookupField "created_on" fs)
    let meta ←
      match lookupField "meta" fs with
      | none => Except.ok ({} : DNSRecordMeta)
      | some v => DNSRecordMeta.unmarshal v
    .ok { Id := id, Type' := ty, Name := name, Content := content,
          Proxiable := proxiable, Proxied := proxied, Ttl := ttl,
          Locked := locked, ZoneId := zoneId, ZoneName := zoneName,
          ModifiedOn := modifiedOn, CreatedOn := createdOn, Meta := meta }
  | _ => .error "json: cannot unmarshal value into Go value of type cloudflare.DNSRecord"

/-- `json.Unmarshal` into a `[]Zone` (`null` leaves the nil slice). -/
def Zone.unmarshalList : Json → Except String (List Zone)
  | .null => .ok []
  | .arr xs => xs.mapM Zone.unmarshal
  | _ => .error "json: cannot unmarshal value into Go value of type []cloudflare.Zone"

/-- `json.Unmarshal` into a `[]DNSRecord`. -/
def DNSRecord.unmarshalList : Json → Except String (List DNSRecord)
  | .null => .ok []
  | .arr xs => xs.mapM DNSRecord.unmarshal
  | _ => .error "json: cannot unmarshal value into Go value of type []cloudflare.DNSRecord"

/-! ## `encoding/json` marshalling of `DNSRecord`

`DNSRecord.String` / `JsonString` produce the JSON object whose ordered
field list is `DNSRecord.marshal`; each `omitempty` field is omitted when
its value is the Go zero value (empty string, `false`, `0`).  A struct
value is never "empty" for `omitempty`, so the `meta` object itself is
always present even when its one field is omitted. -/

/-- Field list of the marshalled `meta` sub-object. -/
def DNSRecord.metaFields (d : DNSRecord) : List (String × Json) :=
  optField d.Meta.AutoAdded "auto_added" (.bool d.Meta.AutoAdded)

/-- Ordered field list of the JSON object produced by
`json.Marshal` on a `DNSRecord` (the body of `DNSRecord.String`). -/
def DNSRecord.marshal (d : DNSRecord) : List (String × Json) :=
  optField (d.Id ≠ "") "id" (.str d.Id) ++
  optField (d.Type' ≠ "") "type" (.str d.Type') ++
  optField (d.Name ≠ "") "name" (.str d.Name) ++
  optField (d.Content ≠ "") "content" (.str d.Content) ++
  optField d.Proxiable "proxiable" (.bool d.Proxiable) ++
  optField d.Proxied "proxied" (.bool d.Proxied) ++
  optField (d.Ttl ≠ 0) "ttl" (.num d.Ttl) ++
  optField d.Locked "locked" (.bool d.Locked) ++
  optField (d.ZoneId ≠ "") "zone_id" (.str d.ZoneId) ++
  optField (d.ZoneName ≠ "") "zone_name" (.str d.ZoneName) ++
  optField (d.ModifiedOn ≠ "") "modified_on" (.str d.ModifiedOn) ++
  optField (d.CreatedOn ≠ "") "created_on" (.str d.CreatedOn) ++
  [("meta", .obj d.metaFields)]

/-! ## Services -/

/-- An HTTP request as handed to `BaseSvc.Invoke`: method, URL, and the
JSON document whose rendering is the request body (`none` for no body). -/
structure Request where
  method : String
  url : String
  body : Option Json

/-- Outcome of `BaseSvc.Invoke` (`client.Do`): either no response with a
transport error (`resp == nil`), or a response whose body is `some`
JSON document, or `none` when the body bytes are not valid JSON. -/
inductive HttpResult where
  | failed (err : String) : HttpResult
  | ok (body : Option Json) : HttpResult

/-- The HTTP transport, abstracted: `net/http` plus the remote server. -/
def Transport : Type := Request → HttpResult

/-- `json.Decoder.Decode` into the nested `ResultInfo` struct. -/
def decodeResultInfo : Option Json → Except String MessageResultInfo
  | none => .ok {}
  | some .null => .ok {}
  | some (.obj gs) => do
    let page ← decodeUintField (lookupField "page" gs)
    let perPage ← decodeUintField (lookupField "per_page" gs)
    let totalPages ← decodeUintField (lookupField "total_pages" gs)
    let count ← decodeUintField (lookupField "count" gs)
    let totalCount ← decodeUintField (lookupField "total_count" gs)
    .ok { Page := page, PerPage := perPage, TotalPages := totalPages,
          Count := count, TotalCount := totalCount }
  | some _ => .error "json: cannot unmarshal value into field ResultInfo"

/-- `json.Decoder.Decode` of a response body into a `Message`.  The three
`json.RawMessage` fields keep the raw sub-document when the key is
present (a present `null` is the raw bytes `null`, not an absent key). -/
def decodeMessage : Json → Except String Message
  | .null => .ok {}
  | .obj fs => do
    let success ← decodeBoolField (lookupField "success" fs)
    let resultInfo ← decodeResultInfo (lookupField "result_info" fs)
    .ok { Success := success, Errors := lookupField "errors" fs,
          Messages := lookupField "messages" fs,
          Result := lookupField "result" fs, ResultInfo := resultInfo }
  | _ => .error "json: cannot unmarshal value into Go value of type cloudflare.Message"

/-- `BaseSvc.Decode`: decode the response body into a `Message` envelope;
only when `msg.Success` holds is the raw `Result` payload unmarshalled a
second time into the caller's target (`dec`, with zero value `zero`).
Returns the Go pair (filled target, error).

Faithfulness notes: a malformed body or a mis-typed envelope returns the
zero target with the decoder's error (Go may partially fill `msg` before
erroring; every property proved below hypothesises a well-formed
envelope, where no partial fill arises).  When `Success` is set and the
`result` key was absent, `msg.Result` is the nil raw message and
`json.Unmarshal` fails with `unexpected end of JSON input`. -/
def BaseSvc.Decode {α : Type} (dec : Json → Except String α) (zero : α)
    (body : Option Json) : α × Option String :=
  match body with
  | none => (zero, some "invalid character in response body")
  | some j =>
    match decodeMessage j with
    | .error e => (zero, some e)
    | .ok msg =>
      if msg.Success then
        match msg.Result with
        | none => (zero, some "unexpected end of JSON input")
        | some payload =>
          match dec payload with
          | .error e => (zero, some e)
          | .ok v => (v, none)
      else (zero, none)

/-- URL of `ZonesSvc.Get`: `ApiUrlBase + APiUrlZones`. -/
def ZonesSvc.getUrl : String := ApiUrlBase ++ APiUrlZones

/-- `ZonesSvc.Get`: `GET /zones/`, decode a `[]Zone`. -/
def ZonesSvc.Get (t : Transport) : List Zone × Option String :=
  match t { method := "GET", url := ZonesSvc.getUrl, body := none } with
  | .failed err => ([], some err)
  | .ok body => BaseSvc.Decode Zone.unmarshalList [] body

/-- URL of `DNSRecordsSvc.Get`:
`ApiUrlBase + APiUrlZones + zoneId + ApiUrlDnsRecords`. -/
def DNSRecordsSvc.getUrl (zoneId : String) : String :=
  ApiUrlBase ++ APiUrlZones ++ zoneId ++ ApiUrlDnsRecords

/-- `DNSRecordsSvc.Get`: `GET /zones/{zoneId}/dns_records/`, decode a
`[]DNSRecord`. -/
def DNSRecordsSvc.Get (zoneId : String) (t : Transport) :
    List DNSRecord × Option String :=
  match t { method := "GET", url := DNSRecordsSvc.getUrl zoneId, body := none } with
  | .failed err => ([], some err)
  | .ok body => BaseSvc.Decode DNSRecord.unmarshalList [] body

/-- One conditional `v.Add(key, value)` call of `Search`. -/
def optPair (present : Prop) [Decidable present] (k v : String) :
    List (String × String) :=
  if present then [(k, v)] else []

/-- The `url.Values` built by `DNSRecordsSvc.Search`, in `Add` order:
each filter is added only when non-empty, `page` only when `> 0`,
`per_page` only when `5 <= perPage < 100`. -/
def DNSRecordsSvc.searchValues (typeStr name content : String)
    (page perPage : Int) : List (String × String) :=
  optPair (typeStr ≠ "") "type" typeStr ++
  optPair (name ≠ "") "name" name ++
  optPair (content ≠ "") "content" content ++
  optPair (page > 0) "page" (toString page) ++
  optPair (perPage ≥ 5 ∧ perPage < 100) "per_page" (toString perPage)

/-- URL of `DNSRecordsSvc.Search`: the records-collection URL, then `?`,
then the encoded values. -/
def DNSRecordsSvc.searchUrl (zoneId typeStr name content : String)
    (page perPage : Int) : String :=
  ApiUrlBase ++ APiUrlZones ++ zoneId ++ ApiUrlDnsRecords ++ "?" ++
    encodeValues (DNSRecordsSvc.searchValues typeStr name content page perPage)

/-- `DNSRecordsSvc.Search`: `GET` on `searchUrl`, decode a `[]DNSRecord`. -/
def DNSRecordsSvc.Search (zoneId typeStr name content : String)
    (page perPage : Int) (t : Transport) : List DNSRecord × Option String :=
  match t { method := "GET",
            url := DNSRecordsSvc.searchUrl zoneId typeStr name content page perPage,
            body := none } with
  | .failed err => ([], some err)
  | .ok body => BaseSvc.Decode DNSRecord.unmarshalList [] body

/-- `DNSRecordsSvc.Create`: `POST` the marshalled record to the records
collection, decode a single `DNSRecord`. -/
def DNSRecordsSvc.Create (zoneId : String) (dnsRecord : DNSRecord)
    (t : Transport) : DNSRecord × Option String :=
  match t { method := "POST", url := DNSRecordsSvc.getUrl zoneId,
            body := some (.obj dnsRecord.marshal) } with
  | .failed err => ({}, some err)
  | .ok body => BaseSvc.Decode DNSRecord.unmarshal {} body

/-- URL of `DNSRecordsSvc.Update`:
`ApiUrlBase + APiUrlZones + zoneId + ApiUrlDnsRecords + dnsRecord.Id`. -/
def DNSRecordsSvc.updateUrl (zoneId : String) (dnsRecord : DNSRecord) : String :=
  ApiUrlBase ++ APiUrlZones ++ zoneId ++ ApiUrlDnsRecords ++ dnsRecord.Id

/-- `DNSRecordsSvc.Update`: `PUT` the marshalled record to the record URL,
decode a single `DNSRecord`. -/
def DNSRecordsSvc.Update (zoneId : String) (dnsRecord : DNSRecord)
    (t : Transport) : DNSRecord × Option String :=
  match t { method := "PUT", url := DNSRecordsSvc.updateUrl zoneId dnsRecord,
            body := some (.obj dnsRecord.marshal) } with
  | .failed err => ({}, some err)
  | .ok body => BaseSvc.Decode DNSRecord.unmarshal {} body

/-- `DNSRecordsSvc.Delete`: `DELETE` the record URL, decode (and discard)
a `DNSRecord` confirmation, and return the *input* record's id. -/
def DNSRecordsSvc.Delete (zoneId : String) (dnsRecord : DNSRecord)
    (t : Transport) : String × Option String :=
  match t { method := "DELETE",
            url := ApiUrlBase ++ APiUrlZones ++ zoneId ++ ApiUrlDnsRecords ++ dnsRecord.Id,
            body := none } with
  | .failed err => ("", some err)
  | .ok body =>
    let decoded := BaseSvc.Decode DNSRecord.unmarshal {} body
    (dnsRecord.Id, decoded.2)

/-! ## Field-lookup lemmas on the marshalled `DNSRecord` -/

theorem lookupField_marshal_id (d : DNSRecord) :
    lookupField "id" d.marshal =
      if d.Id = "" then none else some (.str d.Id) := by
  by_cases h : d.Id = "" <;>
    simp [DNSRecord.marshal, lookupField_append, lookupField_optField_same,
      lookupField_optField_ne, lookupField, h]

theorem lookupField_marshal_type (d : DNSRecord) :
    lookupField "type" d.marshal =
      if d.Type' = "" then none else some (.str d.Type') := by
  by_cases h : d.Type' = "" <;>
    simp [DNSRecord.marshal, lookupField_append, lookupField_optField_same,
      lookupField_optField_ne, lookupField, h]

theorem lookupField_marshal_name (d : DNSRecord) :
    lookupField "name" d.marshal =
      if d.Name = "" then none else some (.str d.Name) := by
  by_cases h : d.Name = "" <;>
    simp [DNSRecord.marshal, lookupField_append, lookupField_optField_same,
      lookupField_optField_ne, lookupField, h]

theorem lookupField_marshal_content (d : DNSRecord) :
    lookupField "content" d.marshal =
      if d.Content = "" then none else some (.str d.Content) := by
  by_cases h : d.Content = "" <;>
    simp [DNSRecord.marshal, lookupField_append, lookupField_optField_same,
      lookupField_optField_ne, lookupField, h]

theorem lookupField_marshal_proxiable (d : DNSRecord) :
    lookupField "proxiable" d.marshal =
      if d.Proxiable then some (.bool d.Proxiable) else none := by
  cases h : d.Proxiable <;>
    simp [DNSRecord.marshal, lookupField_append, lookupField_optField_same,
      lookupField_optField_ne, lookupField, h]

theorem lookupField_marshal_proxied (d : DNSRecord) :
    lookupField "proxied" d.marshal =
      if d.Proxied then some (.bool d.Proxied) else none := by
  cases h : d.Proxied <;>
    simp [DNSRecord.marshal, lookupField_append, lookupField_optField_same,
      lookupField_optField_ne, lookupField, h]

theorem lookupField_marshal_ttl (d : DNSRecord) :
    lookupField "ttl" d.marshal =
      if d.Ttl = 0 then none else some (.num d.Ttl) := by
  by_cases h : d.Ttl = 0 <;>
    simp [DNSRecord.marshal, lookupField_append, lookupField_optField_same,
      lookupField_optField_ne, lookupField, h]

theorem lookupField_marshal_locked (d : DNSRecord) :
    lookupField "locked" d.marshal =
      if d.Locked then some (.bool d.Locked) else none := by
  cases h : d.Locked <;>
    simp [DNSRecord.marshal, lookupField_append, lookupField_optField_same,
      lookupField_optField_ne, lookupField, h]

theorem lookupField_marshal_zone_id (d : DNSRecord) :
    lookupField "zone_id" d.marshal =
      if d.ZoneId = "" then none else some (.str d.ZoneId) := by
  by_cases h : d.ZoneId = "" <;>
    simp [DNSRecord.marshal, lookupField_append, lookupField_optField_same,
      lookupField_optField_ne, lookupField, h]

theorem lookupField_marshal_zone_name (d : DNSRecord) :
    lookupField "zone_name" d.marshal =
      if d.ZoneName = "" then none else some (.str d.ZoneName) := by
  by_cases h : d.ZoneName = "" <;>
    simp [DNSRecord.marshal, lookupField_append, lookupField_optField_same,
      lookupField_optField_ne, lookupField, h]

theorem lookupField_marshal_modified_on (d : DNSRecord) :
    lookupField "modified_on" d.marshal =
      if d.ModifiedOn = "" then none else some (.str d.ModifiedOn) := by
  by_cases h : d.ModifiedOn = "" <;>
    simp [DNSRecord.marshal, lookupField_append, lookupField_optField_same,
      lookupField_optField_ne, lookupField, h]

theorem lookupField_marshal_created_on (d : DNSRecord) :
    lookupField "created_on" d.marshal =
      if d.CreatedOn = "" then none else some (.str d.CreatedOn) := by
  by_cases h : d.CreatedOn = "" <;>
    simp [DNSRecord.marshal, lookupField_append, lookupField_optField_same,
      lookupField_optField_ne, lookupField, h]

theorem lookupField_marshal_meta (d : DNSRecord) :
    lookupField "meta" d.marshal = some (.obj d.metaFields) := by
  simp [DNSRecord.marshal, lookupField_append, lookupField_optField_ne,
    lookupField]

/-! ## Per-field decode/encode inverses -/

theorem decodeStrField_roundtrip (s : String) :
    decodeStrField (if s = "" then none else some (.str s)) = .ok s := by
  by_cases h : s = "" <;> simp [decodeStrField, h]

theorem decodeBoolField_roundtrip (b : Bool) :
    decodeBoolField (if b then some (.bool b) else none) = .ok b := by
  cases b <;> rfl

theorem decodeUintField_roundtrip (n : Nat) :
    decodeUintField (if n = 0 then none else some (.num n)) = .ok n := by
  by_cases h : n = 0 <;> simp [decodeUintField, h]

theorem DNSRecordMeta.unmarshal_metaFields (d : DNSRecord) :
    DNSRecordMeta.unmarshal (.obj d.metaFields) = .ok d.Meta := by
  cases hm : d.Meta with
  | mk aa =>
    cases aa <;>
      simp [DNSRecordMeta.unmarshal, DNSRecord.metaFields, hm, optField,
        lookupField, decodeBoolField, Bind.bind, Except.bind]

theorem DNSRecord.unmarshal_marshal (d : DNSRecord) :
    DNSRecord.unmarshal (.obj d.marshal) = .ok d := by
  simp only [DNSRecord.unmarshal, lookupField_marshal_id,
    lookupField_marshal_type, lookupField_marshal_name,
    lookupField_marshal_content, lookupField_marshal_proxiable,
    lookupField_marshal_proxied, lookupField_marshal_ttl,
    lookupField_marshal_locked, lookupField_marshal_zone_id,
    lookupField_marshal_zone_name, lookupField_marshal_modified_on,
    lookupField_marshal_created_on, lookupField_marshal_meta,
    decodeStrField_roundtrip, decodeBoolField_roundtrip,
    decodeUintField_roundtrip, DNSRecordMeta.unmarshal_metaFields,
    Bind.bind, Except.bind]

theorem if_none_some_eq_none (c : Prop) [Decidable c] (j : Json) :
    ((if c then none else some j) = (none : Option Json)) ↔ c := by
  split <;> simp_all

theorem if_some_none_eq_none (c : Prop) [Decidable c] (j : Json) :
    ((if c then some j else none) = (none : Option Json)) ↔ ¬ c := by
  split <;> simp_all

/-! ## Sample envelopes used by concrete checks -/

/-- A well-formed envelope with `success = false` and no result. -/
def envFalse : Json := .obj [("success", .bool false)]

/-- A well-formed envelope with `success = false` whose `result` payload is
not even a DNS-record shape. -/
def envFalseJunk : Json :=
  .obj [("success", .bool false), ("result", .str "junk")]

/-- A well-formed envelope with `success = true` and no `result` key. -/
def envTrueNoResult : Json := .obj [("success", .bool true)]

/-! ## Claim theorems -/

/-- Claim C2: for every envelope that decodes with `success = false`,
`BaseSvc.Decode` leaves the caller-supplied target at its zero value and
returns no error, whatever the `result` payload contains — the second
(payload) decode is attempted only when `success` is true, so the outcome
does not depend on the target decoder at all. -/
theorem decode_gates_on_success {α : Type} (dec : Json → Except String α)
    (zero : α) (j : Json) (msg : Message)
    (hdec : decodeMessage j = .ok msg) (hf : msg.Success = false) :
    BaseSvc.Decode dec zero (some j) = (zero, none) := by
  simp [BaseSvc.Decode, hdec, hf]

/-- Witness for C2 at a concrete `success = false` envelope carrying a
junk `result` payload. -/
theorem decode_gates_on_success_witness :
    BaseSvc.Decode DNSRecord.unmarshal ({} : DNSRecord) (some envFalseJunk) =
      ({}, none) :=
  decode_gates_on_success DNSRecord.unmarshal {} envFalseJunk
    { Success := false, Result := some (.str "junk") } rfl rfl

/-- Claim C5: on the outbound serialization of a `DNSRecord` (the request
body of `Create`/`Update`), each wire field `id`, `type`, `name`,
`content`, `proxiable`, `proxied`, `ttl`, `locked`, `zone_id`,
`zone_name`, `modified_on`, `created_on` and `meta.auto_added` is omitted
exactly when its value is the Go zero value. -/
theorem dnsRecord_marshal_omits_zero_fields (d : DNSRecord) :
    (lookupField "id" d.marshal = none ↔ d.Id = "") ∧
    (lookupField "type" d.marshal = none ↔ d.Type' = "") ∧
    (lookupField "name" d.marshal = none ↔ d.Name = "") ∧
    (lookupField "content" d.marshal = none ↔ d.Content = "") ∧
    (lookupField "proxiable" d.marshal = none ↔ d.Proxiable = false) ∧
    (lookupField "proxied" d.marshal = none ↔ d.Proxied = false) ∧
    (lookupField "ttl" d.marshal = none ↔ d.Ttl = 0) ∧
    (lookupField "locked" d.marshal = none ↔ d.Locked = false) ∧
    (lookupField "zone_id" d.marshal = none ↔ d.ZoneId = "") ∧
    (lookupField "zone_name" d.marshal = none ↔ d.ZoneName = "") ∧
    (lookupField "modified_on" d.marshal = none ↔ d.ModifiedOn = "") ∧
    (lookupField "created_on" d.marshal = none ↔ d.CreatedOn = "") ∧
    (lookupField "auto_added" d.metaFields = none ↔ d.Meta.AutoAdded = false) := by
  simp [lookupField_marshal_id, lookupField_marshal_type,
    lookupField_marshal_name, lookupField_marshal_content,
    lookupField_marshal_proxiable, lookupField_marshal_proxied,
    lookupField_marshal_ttl, lookupField_marshal_locked,
    lookupField_marshal_zone_id, lookupField_marshal_zone_name,
    lookupField_marshal_modified_on, lookupField_marshal_created_on,
    DNSRecord.metaFields, lookupField_optField_same,
    if_none_some_eq_none, if_some_none_eq_none]

/-- Claim C6: serializing any `DNSRecord` (the object written by
`DNSRecord.String` / `JsonString`) and deserializing the result into a
fresh record restores exactly the populated fields and leaves every
omitted field at its zero value — i.e. the round trip is the identity. -/
theorem dnsRecord_roundtrip (d : DNSRecord) :
    DNSRecord.unmarshal (.obj d.marshal) = .ok d :=
  DNSRecord.unmarshal_marshal d

/-- Claim C9: an envelope that decodes with `success = true` but whose
`result` key is absent (nil raw message) makes the payload unmarshal step
fail — `BaseSvc.Decode` returns the zero target together with a non-nil
error, so `success = true` alone does not guarantee an error-free
decode. -/
theorem decode_success_without_result_errors {α : Type}
    (dec : Json → Except String α) (zero : α) (j : Json) (msg : Message)
    (hdec : decodeMessage j = .ok msg) (hs : msg.Success = true)
    (hr : msg.Result = none) :
    BaseSvc.Decode dec zero (some j) =
      (zero, some "unexpected end of JSON input") := by
  simp [BaseSvc.Decode, hdec, hs, hr]

/-- Witness for C9 at the concrete envelope with `success` true and
no `result` key. -/
theorem decode_success_without_result_errors_witness :
    BaseSvc.Decode DNSRecord.unmarshal ({} : DNSRecord) (some envTrueNoResult) =
      ({}, some "unexpected end of JSON input") :=
  decode_success_without_result_errors DNSRecord.unmarshal {} envTrueNoResult
    { Success := true } rfl rfl rfl

/-- Counterexample to claim C1 as stated: on a well-formed
`success = false` envelope, `DNSRecordsSvc.Delete` does return a nil
error, but its result is the *input* record's id `"abc123"`, which is not
the zero value of its result type — so not every operation returns a
zero-valued result in the `success = false` case. -/
theorem delete_on_failure_not_zero_valued :
    DNSRecordsSvc.Delete "z1" { Id := "abc123" }
        (fun _ => .ok (some envFalse)) = ("abc123", none) ∧
      "abc123" ≠ "" :=
  ⟨rfl, by decide⟩

/-- Claim C1 (amended): on any response whose body is a well-formed
envelope with `success = false`, every service operation returns a nil
error and leaves its decode target zero-valued — `ZonesSvc.Get`,
`DNSRecordsSvc.Get` and `Search` return the empty list, `Create` and
`Update` the zero record, while `Delete` returns its usual value, the
input record's id.  No operation produces a distinct error signal. -/
theorem services_silent_on_failure_envelope
    (zoneId typeStr name content : String) (page perPage : Int)
    (r : DNSRecord) (t : Transport) (j : Json) (msg : Message)
    (ht : ∀ req, t req = .ok (some j))
    (hdec : decodeMessage j = .ok msg) (hf : msg.Success = false) :
    ZonesSvc.Get t = ([], none) ∧
    DNSRecordsSvc.Get zoneId t = ([], none) ∧
    DNSRecordsSvc.Search zoneId typeStr name content page perPage t = ([], none) ∧
    DNSRecordsSvc.Create zoneId r t = ({}, none) ∧
    DNSRecordsSvc.Update zoneId r t = ({}, none) ∧
    DNSRecordsSvc.Delete zoneId r t = (r.Id, none) := by
  simp [ZonesSvc.Get, DNSRecordsSvc.Get, DNSRecordsSvc.Search,
    DNSRecordsSvc.Create, DNSRecordsSvc.Update, DNSRecordsSvc.Delete,
    ht, BaseSvc.Decode, hdec, hf]

/-- Witness for the amended C1: a transport that always answers with the
concrete `success = false` envelope. -/
theorem services_silent_on_failure_envelope_witness :
    ZonesSvc.Get (fun _ => .ok (some envFalse)) = ([], none) ∧
    DNSRecordsSvc.Get "z1" (fun _ => .ok (some envFalse)) = ([], none) ∧
    DNSRecordsSvc.Search "z1" "A" "ww1.example.com" "" 0 0
      (fun _ => .ok (some envFalse)) = ([], none) ∧
    DNSRecordsSvc.Create "z1" { Id := "abc123" }
      (fun _ => .ok (some envFalse)) = ({}, none) ∧
    DNSRecordsSvc.Update "z1" { Id := "abc123" }
      (fun _ => .ok (some envFalse)) = ({}, none) ∧
    DNSRecordsSvc.Delete "z1" { Id := "abc123" }
      (fun _ => .ok (some envFalse)) = ("abc123", none) :=
  services_silent_on_failure_envelope "z1" "A" "ww1.example.com" "" 0 0
    { Id := "abc123" } (fun _ => .ok (some envFalse)) envFalse
    { Success := false } (fun _ => rfl) rfl rfl

/-- Membership in one conditional `Add` chunk. -/
theorem mem_optPair (x : String × String) (present : Prop)
    [Decidable present] (k v : String) :
    x ∈ optPair present k v ↔ present ∧ x = (k, v) := by
  by_cases h : present <;> simp [optPair, h]

/-- Claim C3: `Search` includes the `page` parameter exactly when
`page > 0` and the `per_page` parameter exactly when
`5 ≤ perPage < 100`; in particular `perPage = 4` and `perPage = 100` are
silently dropped from the request URL while `perPage = 5` and
`perPage = 99` are included, and `page = 0` is dropped while `page = 1`
is included. -/
theorem search_pagination_bounds (typeStr name content : String)
    (page perPage : Int) :
    ((∃ v, ("page", v) ∈
        DNSRecordsSvc.searchValues typeStr name content page perPage) ↔
      0 < page) ∧
    ((∃ v, ("per_page", v) ∈
        DNSRecordsSvc.searchValues typeStr name content page perPage) ↔
      5 ≤ perPage ∧ perPage < 100) ∧
    isSubstr "per_page" (DNSRecordsSvc.searchUrl "z1" "" "" "" 0 4) = false ∧
    isSubstr "per_page=5" (DNSRecordsSvc.searchUrl "z1" "" "" "" 0 5) = true ∧
    isSubstr "per_page=99" (DNSRecordsSvc.searchUrl "z1" "" "" "" 0 99) = true ∧
    isSubstr "per_page" (DNSRecordsSvc.searchUrl "z1" "" "" "" 0 100) = false ∧
    isSubstr "page" (DNSRecordsSvc.searchUrl "z1" "" "" "" 0 0) = false ∧
    isSubstr "page=1" (DNSRecordsSvc.searchUrl "z1" "" "" "" 1 0) = true := by
  refine ⟨?_, ?_, rfl, rfl, rfl, rfl, rfl, rfl⟩ <;>
    simp [DNSRecordsSvc.searchValues, mem_optPair, Prod.ext_iff]

/-- Counterexample to claim C4 as stated: `url.Values.Encode` sorts the
parameters by key, so the query produced by
`Search(zoneId, "A", "ww1.example.com", "", 0, 0)` is
`name=ww1.example.com&type=A`, and the substring
`type=A&name=ww1.example.com` does not occur in the request URL. -/
theorem search_query_not_in_add_order :
    isSubstr "type=A&name=ww1.example.com"
      (DNSRecordsSvc.searchUrl "z1" "A" "ww1.example.com" "" 0 0) = false :=
  rfl

/-- Claim C4 (amended): the call
`Search(zoneId, "A", "ww1.example.com", "", 0, 0)` produces the query
string `name=ww1.example.com&type=A` (the encoder escapes values, joins
pairs with `&` and sorts them by key, so `name` precedes `type`), and the
request URL carries no `content`, `page` or `per_page` parameter. -/
theorem search_query_encoding :
    encodeValues (DNSRecordsSvc.searchValues "A" "ww1.example.com" "" 0 0) =
      "name=ww1.example.com&type=A" ∧
    isSubstr "name=ww1.example.com&type=A"
      (DNSRecordsSvc.searchUrl "z1" "A" "ww1.example.com" "" 0 0) = true ∧
    isSubstr "content"
      (DNSRecordsSvc.searchUrl "z1" "A" "ww1.example.com" "" 0 0) = false ∧
    isSubstr "page"
      (DNSRecordsSvc.searchUrl "z1" "A" "ww1.example.com" "" 0 0) = false :=
  ⟨rfl, rfl, rfl, rfl⟩

/-- A well-formed `success = true` envelope whose result payload is a DNS
record carrying the server-side id `"srv-999"`. -/
def envDeleteEcho : Json :=
  .obj [("success", .bool true), ("result", .obj [("id", .str "srv-999")])]

/-- Claim C7: `Delete` returns the *input* record's id whenever a response
was delivered, whatever the response body holds; in particular, with an
input id `"abc123"` and a well-formed success envelope whose result
carries the different id `"srv-999"`, it returns `"abc123"` with a nil
error. -/
theorem delete_returns_input_id (zoneId : String) (r : DNSRecord)
    (body : Option Json) :
    (DNSRecordsSvc.Delete zoneId r (fun _ => .ok body)).1 = r.Id ∧
    DNSRecordsSvc.Delete "z1" { Id := "abc123" }
      (fun _ => .ok (some envDeleteEcho)) = ("abc123", none) :=
  ⟨rfl, rfl⟩

/-- A well-formed `success = true` envelope whose result payload is the
record the server would echo back for an update. -/
def envUpdateOk : Json :=
  .obj [("success", .bool true),
        ("result", .obj [("id", .str "resp1"), ("content", .str "10.0.0.1")])]

/-- Claim C8: calling `Update` with a record whose `Id` is empty is not
validated or rejected: the constructed request URL degenerates to the
records-collection URL (the record-id path segment is empty, so the URL
does not name a record), and the operation still runs the ordinary
pipeline — on a success envelope it returns the decoded record and a nil
error. -/
theorem update_empty_id_unvalidated (zoneId : String) (r : DNSRecord)
    (h : r.Id = "") :
    DNSRecordsSvc.updateUrl zoneId r =
      ApiUrlBase ++ APiUrlZones ++ zoneId ++ ApiUrlDnsRecords ∧
    DNSRecordsSvc.Update zoneId r (fun _ => .ok (some envUpdateOk)) =
      ({ Id := "resp1", Content := "10.0.0.1" }, none) := by
  constructor
  · simp [DNSRecordsSvc.updateUrl, h]
  · rfl

/-- Witness for C8: a record with an empty id but a non-empty content
field. -/
theorem update_empty_id_unvalidated_witness :
    DNSRecordsSvc.updateUrl "z1" { Content := "1.2.3.4" } =
      ApiUrlBase ++ APiUrlZones ++ "z1" ++ ApiUrlDnsRecords ∧
    DNSRecordsSvc.Update "z1" { Content := "1.2.3.4" }
      (fun _ => .ok (some envUpdateOk)) =
      ({ Id := "resp1", Content := "10.0.0.1" }, none) :=
  update_empty_id_unvalidated "z1" { Content := "1.2.3.4" } rfl

/-- Claim C10: `Search` always appends `?` to the records-collection URL
before the encoded parameters; when every filter argument is empty and
the pagination arguments are out of range, all parameters are dropped
and the request URL is exactly the collection URL followed by a bare
trailing `?`. -/
theorem search_url_bare_question_mark (zoneId : String) (page perPage : Int)
    (hp : page ≤ 0) (hpp : perPage < 5 ∨ 100 ≤ perPage) :
    DNSRecordsSvc.searchUrl zoneId "" "" "" page perPage =
      ApiUrlBase ++ APiUrlZones ++ zoneId ++ ApiUrlDnsRecords ++ "?" := by
  have h1 : ¬ (0 : Int) < page := by omega
  have h2 : ¬ ((5 : Int) ≤ perPage ∧ perPage < 100) := by omega
  simp [DNSRecordsSvc.searchUrl, DNSRecordsSvc.searchValues, optPair,
    h1, h2, encodeValues, sortByKey, String.intercalate]

/-- Witness for C10 at `page = 0`, `perPage = 0`. -/
theorem search_url_bare_question_mark_witness :
    DNSRecordsSvc.searchUrl "z1" "" "" "" 0 0 =
      ApiUrlBase ++ APiUrlZones ++ "z1" ++ ApiUrlDnsRecords ++ "?" :=
  search_url_bare_question_mark "z1" 0 0 (by decide) (Or.inl (by decide))

end Cloudflare
